import Mathlib

/-!
# A verification model of the `email_system` templated dispatch service

Shallow embedding of `email_system/email_service/service.py`,
`email_system/email_service/types/base.py`,
`email_system/email_service/types/templates.py`,
`email_system/core/models.py` and `email_system/core/exceptions.py`.

External collaborators (the Jinja2 template engine, the premailer style
inliner, and the Resend delivery API) are modelled as oracle functions
supplied through an `Adapters` record; Python exceptions are modelled as
`Except` values carrying an exception-class tag (`ErrKind`) and a message.
Python `dict` values flowing through the pipeline are modelled by the
JSON-like type `Value` whose object fields keep insertion order, matching
Python's ordered dicts.
-/

set_option autoImplicit false

deriving instance DecidableEq for Except

namespace EmailSystem

/-- Exception classes of `core/exceptions.py` (plus a tag for exceptions
raised by the external pydantic validator on `EmailAddress`). -/
inductive ErrKind where
  | validationError
  | emailServiceError
  | templateNotFoundError
  | configurationError
  | pydanticError
  deriving DecidableEq, Repr

/-- A raised Python exception: its class and its `str(e)` message. -/
structure Err where
  kind : ErrKind
  msg : String
  deriving DecidableEq, Repr

/-- `core/models.py` `EmailAddress`: validated address plus optional
display name (`name = None` and `name = ""` are both falsy in Python). -/
structure EmailAddress where
  email : String
  name : Option String
  deriving DecidableEq, Repr

/-- `EmailAddress.__str__`: `"name <email>"` when `name` is truthy,
else the bare email. -/
def EmailAddress.display (a : EmailAddress) : String :=
  match a.name with
  | some n => if n = "" then a.email else n ++ " <" ++ a.email ++ ">"
  | none => a.email

/-- Split a character list at every occurrence of `sep` (Python
`str.split(sep)` semantics: `n` separators yield `n+1` groups). -/
def splitOnChar (sep : Char) : List Char → List (List Char)
  | [] => [[]]
  | c :: rest =>
    let r := splitOnChar sep rest
    if c = sep then [] :: r
    else
      match r with
      | [] => [[c]]
      | g :: gs => (c :: g) :: gs

/-- Characters allowed in the local part of an email address. -/
def isLocalChar (c : Char) : Bool :=
  c.isAlphanum || c = '.' || c = '_' || c = '%' || c = '+' || c = '-'

/-- Characters allowed in a domain label. -/
def isDomainChar (c : Char) : Bool :=
  c.isAlphanum || c = '-'

/-- Modelled from the spec: the email grammar enforced by the external
pydantic `EmailStr` validator on `EmailAddress.email` (the validator's code
is not part of this repository).  Spec 4.1: local part `[A-Za-z0-9._%+-]+`,
an `@`, domain labels separated by `.`, and a TLD of at least 2 alphabetic
characters.  The empty string is invalid (no `@`). -/
def emailValid (s : String) : Bool :=
  match splitOnChar '@' s.toList with
  | [lp, domain] =>
    !lp.isEmpty && lp.all isLocalChar &&
    (let labels := splitOnChar '.' domain
     decide (2 ≤ labels.length) &&
     labels.all (fun l => !l.isEmpty && l.all isDomainChar) &&
     (match labels.getLast? with
      | some tld => decide (2 ≤ tld.length) && tld.all Char.isAlpha
      | none => false))
  | _ => false

/-- The message of the exception raised by pydantic for an invalid
`EmailAddress.email` value. -/
def pydanticEmailError : String := "value is not a valid email address"

/-- `EmailAddress(email=..., name=...)`: pydantic validates the email
field and raises on an invalid value. -/
def mkEmailAddress (email : String) (name : Option String) :
    Except Err EmailAddress :=
  if emailValid email then .ok ⟨email, name⟩
  else .error ⟨.pydanticError, pydanticEmailError⟩

/-- `core/models.py` `Company` (the `support_email` field is already
normalized to an `EmailAddress` by the pydantic pre-validator). -/
structure Company where
  name : String
  address : String
  supportEmail : EmailAddress
  website : String
  socialMedia : List (String × String)
  logoUrl : Option String
  deriving DecidableEq, Repr

/-- `core/models.py` `Notification`. -/
structure Notification where
  title : String
  message : String
  type : String
  icon : Option String
  actionUrl : Option String
  actionText : Option String
  additionalInfo : Option String
  deriving DecidableEq, Repr

/-- `core/models.py` `Alert`. -/
structure Alert where
  title : String
  message : String
  type : String
  steps : Option (List String)
  actionUrl : Option String
  actionText : Option String
  contactSupport : Bool
  deriving DecidableEq, Repr

/-- `core/models.py` `OrderItem`.  The source stores `price` as a float
and always formats it with two decimals; amounts are modelled exactly in
cents so that the two-decimal formatting is deterministic. -/
structure OrderItem where
  name : String
  quantity : Nat
  priceCents : Nat
  sku : Option String
  deriving DecidableEq, Repr

/-- `OrderItem.total`: `quantity * price`. -/
def OrderItem.totalCents (it : OrderItem) : Nat :=
  it.quantity * it.priceCents

/-- `core/models.py` `Order`. -/
structure Order where
  number : String
  items : List OrderItem
  shippingAddress : String
  deliveryEstimate : String
  deriving DecidableEq, Repr

/-- `Order.total`: sum of the item totals. -/
def Order.totalCents (o : Order) : Nat :=
  (o.items.map OrderItem.totalCents).sum

/-- `Order.items_count`: sum of the item quantities. -/
def Order.itemsCount (o : Order) : Nat :=
  (o.items.map OrderItem.quantity).sum

/-- Two-decimal rendering of an amount in cents (`f"{x:.2f}"` on the
nonnegative floats used by the templates). -/
def formatCents (c : Nat) : String :=
  let whole := c / 100
  let frac := c % 100
  toString whole ++ "." ++ (if frac < 10 then "0" ++ toString frac else toString frac)

/-- Python values flowing through the template-data dictionaries.
Object fields keep insertion order, like Python dicts. -/
inductive Value where
  | str (s : String)
  | int (i : Int)
  | bool (b : Bool)
  | null
  | list (vs : List Value)
  | obj (fields : List (String × Value))

/-- Dict lookup on an ordered field list (first match). -/
def lookupAssoc : List (String × Value) → String → Option Value
  | [], _ => none
  | (k, v) :: rest, key => if k = key then some v else lookupAssoc rest key

/-- Dict assignment `d[key] = v`: replaces the value in place when the
key exists (keeping its position, as Python dicts do), else appends. -/
def setAssoc : List (String × Value) → String → Value → List (String × Value)
  | [], key, v => [(key, v)]
  | (k, w) :: rest, key, v =>
    if k = key then (key, v) :: rest else (k, w) :: setAssoc rest key v

/-- Python truthy-or on an optional string: `x or d`. -/
def pyOr (x : Option String) (d : String) : String :=
  match x with
  | some s => if s = "" then d else s
  | none => d

/-- An optional string as a template value (`None` renders as null). -/
def optStr : Option String → Value
  | some s => .str s
  | none => .null

/-- The `company` sub-dictionary built by `BaseEmail.get_template_data`. -/
def companyData (c : Company) : Value :=
  .obj [("name", .str c.name),
        ("address", .str c.address),
        ("website", .str c.website),
        ("support_email", .str c.supportEmail.display),
        ("social_media", .obj (c.socialMedia.map (fun p => (p.1, Value.str p.2)))),
        ("logo_url", optStr c.logoUrl)]

/-- The base template data of `BaseEmail.get_template_data`:
company info plus the year captured at construction time. -/
def baseTemplateData (c : Company) (year : Nat) : List (String × Value) :=
  [("company", companyData c), ("year", .int year)]

/-- The `user` sub-dictionary shared by the variants:
`{"name": self.user.name or "Usuario", "email": self.user.email}`. -/
def userData (u : EmailAddress) : Value :=
  .obj [("name", .str (pyOr u.name "Usuario")), ("email", .str u.email)]

/-- The `notification` sub-dictionary of `NotificationEmail`. -/
def notificationData (n : Notification) : Value :=
  .obj [("title", .str n.title),
        ("message", .str n.message),
        ("type", .str n.type),
        ("icon", optStr n.icon),
        ("action_url", optStr n.actionUrl),
        ("action_text", optStr n.actionText),
        ("additional_info", optStr n.additionalInfo)]

/-- The `alert` sub-dictionary of `AlertEmail`. -/
def alertData (a : Alert) : Value :=
  .obj [("title", .str a.title),
        ("message", .str a.message),
        ("type", .str a.type),
        ("steps", match a.steps with
                  | some ss => .list (ss.map Value.str)
                  | none => .null),
        ("action_url", optStr a.actionUrl),
        ("action_text", optStr a.actionText),
        ("contact_support", .bool a.contactSupport)]

/-- One line item as projected by `OrderConfirmationEmail.get_template_data`:
`sku` defaults to "N/A" (Python `or`), prices formatted with 2 decimals. -/
def orderItemData (it : OrderItem) : Value :=
  .obj [("name", .str it.name),
        ("sku", .str (pyOr it.sku "N/A")),
        ("quantity", .int it.quantity),
        ("price", .str (formatCents it.priceCents)),
        ("total", .str (formatCents it.totalCents))]

/-- The `order_info` sub-dictionary; `created_at` is
`datetime.now().strftime("%d/%m/%Y %H:%M")` evaluated at render time,
passed here explicitly as `nowFmt`. -/
def orderInfoData (o : Order) (nowFmt : String) : Value :=
  .obj [("number", .str o.number),
        ("created_at", .str nowFmt),
        ("products", .list (o.items.map orderItemData)),
        ("items_count", .int o.itemsCount),
        ("total", .str (formatCents o.totalCents)),
        ("shipping_address", .str o.shippingAddress),
        ("delivery_estimate", .str o.deliveryEstimate)]

/-- The content-variant hierarchy of `types/templates.py` as a tagged
union.  `year` is the construction-time `datetime.now().year` stored by
`BaseEmail.__init__`. -/
inductive EmailVariant where
  | welcome (company : Company) (user : EmailAddress) (dashboardUrl : String)
      (year : Nat)
  | passwordReset (company : Company) (user : EmailAddress) (resetUrl : String)
      (expiresIn : Int) (year : Nat)
  | notification (company : Company) (user : EmailAddress) (notif : Notification)
      (preferencesUrl : String) (year : Nat)
  | alert (company : Company) (user : EmailAddress) (al : Alert) (year : Nat)
  | orderConfirmation (company : Company) (customer : EmailAddress) (order : Order)
      (year : Nat)

/-- The class-level `template_name` of each variant. -/
def EmailVariant.templateName : EmailVariant → String
  | .welcome .. => "welcome.html"
  | .passwordReset .. => "password_reset.html"
  | .notification .. => "notification.html"
  | .alert .. => "alert.html"
  | .orderConfirmation .. => "order_confirmation.html"

/-- The `_validate_specific_data` checks of each variant, raising
`ValidationError` (Python `not s` is true exactly on the empty string). -/
def validateSpecific : EmailVariant → Except Err Unit
  | .welcome _ _ url _ =>
    if url = "" then
      .error ⟨.validationError, "dashboard_url es requerido para el email de bienvenida"⟩
    else .ok ()
  | .passwordReset _ _ url exp _ =>
    if url = "" then
      .error ⟨.validationError, "reset_url es requerido para el email de restablecimiento"⟩
    else if exp ≤ 0 then
      .error ⟨.validationError, "expires_in debe ser un número positivo de horas"⟩
    else .ok ()
  | .notification _ _ n _ _ =>
    if n.title = "" || n.message = "" then
      .error ⟨.validationError, "title y message son requeridos para el email de notificación"⟩
    else .ok ()
  | .alert _ _ a _ =>
    if a.title = "" || a.message = "" then
      .error ⟨.validationError, "title y message son requeridos para el email de alerta"⟩
    else .ok ()
  | .orderConfirmation _ _ o _ =>
    if o.number = "" then
      .error ⟨.validationError, "El número de pedido es requerido"⟩
    else if o.items = [] then
      .error ⟨.validationError, "El pedido debe tener al menos un ítem"⟩
    else if o.shippingAddress = "" then
      .error ⟨.validationError, "La dirección de envío es requerida"⟩
    else .ok ()

/-- `BaseEmail.validate`: checks `template_name` is set and non-empty,
then the variant-specific required fields. -/
def EmailVariant.validate (v : EmailVariant) : Except Err Unit :=
  if v.templateName = "" then .error ⟨.validationError, "template_name es requerido"⟩
  else validateSpecific v

/-- `get_template_data` of each variant.  `nowFmt` is the render-time
formatted clock `datetime.now().strftime("%d/%m/%Y %H:%M")`; only
`OrderConfirmationEmail` reads it.  Python `dict.update` appends the new
keys after the base keys. -/
def getTemplateData : EmailVariant → String → Value
  | .welcome c u url year, _ =>
    .obj (baseTemplateData c year ++
      [("user", userData u), ("dashboard_url", .str url)])
  | .passwordReset c u url exp year, _ =>
    .obj (baseTemplateData c year ++
      [("user", userData u), ("reset_url", .str url), ("expires_in", .int exp)])
  | .notification c u n purl year, _ =>
    .obj (baseTemplateData c year ++
      [("user", userData u), ("notification", notificationData n),
       ("preferences_url", .str purl)])
  | .alert c u a year, _ =>
    .obj (baseTemplateData c year ++
      [("user", userData u), ("alert", alertData a)])
  | .orderConfirmation c cust o year, nowFmt =>
    .obj (baseTemplateData c year ++
      [("customer", .obj [("name", .str (pyOr cust.name "Cliente")),
                          ("email", .str cust.email)]),
       ("order_info", orderInfoData o nowFmt)])

/-- Whether the variant's `get_template_data` reads the render-time clock
(only `OrderConfirmationEmail` embeds `created_at = datetime.now()`). -/
def usesRenderClock : EmailVariant → Bool
  | .orderConfirmation .. => true
  | _ => false

/-- Modelled from the spec's words for the refinement claim on
validation: a variant "has all required fields" when Welcome has a
non-empty `dashboard_url`; PasswordReset a non-empty `reset_url` and
`expires_in > 0`; Notification and Alert non-empty `title` and `message`;
OrderConfirmation an order number, at least one item and a non-empty
shipping address. -/
def specRequiredFields : EmailVariant → Prop
  | .welcome _ _ url _ => url ≠ ""
  | .passwordReset _ _ url exp _ => url ≠ "" ∧ 0 < exp
  | .notification _ _ n _ _ => n.title ≠ "" ∧ n.message ≠ ""
  | .alert _ _ a _ => a.title ≠ "" ∧ a.message ≠ ""
  | .orderConfirmation _ _ o _ => o.number ≠ "" ∧ o.items ≠ [] ∧ o.shippingAddress ≠ ""

instance (v : EmailVariant) : Decidable (specRequiredFields v) := by
  cases v <;> {unfold specRequiredFields; infer_instance}

/-- Failure modes of `jinja2.Environment.get_template`:
`TemplateNotFound` or any other exception. -/
inductive TemplateLoadErr where
  | notFound
  | other (msg : String)

/-- The provider-parameter dictionary built by
`EmailService._prepare_email_params` (`cc`/`bcc` keys present only when
the corresponding list is truthy, i.e. non-empty). -/
structure SendParams where
  fromAddr : String
  toAddrs : List String
  subject : String
  html : String
  cc : Option (List String)
  bcc : Option (List String)
  deriving DecidableEq, Repr

/-- Oracles for the external collaborators of `EmailService`:
the Jinja2 template loader/renderer, the premailer style inliner and the
Resend delivery call.  Each is an arbitrary pure function so theorems
quantify over every possible behaviour of the external systems. -/
structure Adapters where
  getTemplate : String → Except TemplateLoadErr String
  renderTemplate : String → Value → Except String String
  inliner : String → Except String String
  deliver : SendParams → Except String Value

/-- `EmailService._prepare_email_params`. -/
def prepareEmailParams (fromEmail : EmailAddress) (toAddrs : List EmailAddress)
    (subject html : String) (cc bcc : Option (List EmailAddress)) : SendParams :=
  { fromAddr := fromEmail.display
    toAddrs := toAddrs.map EmailAddress.display
    subject := subject
    html := html
    cc := match cc with
          | some l => if l = [] then none else some (l.map EmailAddress.display)
          | none => none
    bcc := match bcc with
           | some l => if l = [] then none else some (l.map EmailAddress.display)
           | none => none }

/-- `EmailService._render_with_inline_styles`: load the template
(`TemplateNotFound` becomes `TemplateNotFoundError`, anything else an
`EmailServiceError`), render it (failures become `EmailServiceError`),
then inline styles with premailer — a premailer failure is logged as a
warning and the original rendered HTML is returned unchanged. -/
def renderWithInlineStyles (ad : Adapters) (templateName : String)
    (context : Value) : Except Err String :=
  match ad.getTemplate templateName with
  | .error .notFound =>
    .error ⟨.templateNotFoundError, "Plantilla no encontrada: " ++ templateName⟩
  | .error (.other m) =>
    .error ⟨.emailServiceError,
            "Error al cargar la plantilla " ++ templateName ++ ": " ++ m⟩
  | .ok tpl =>
    match ad.renderTemplate tpl context with
    | .error m =>
      .error ⟨.emailServiceError,
              "Error al renderizar la plantilla " ++ templateName ++ ": " ++ m⟩
    | .ok html =>
      match ad.inliner html with
      | .ok inlined => .ok inlined
      | .error _ => .ok html

/-- One entry of a send result: the constructed params (testing mode),
a provider receipt, or an error record `{"error": msg}` that carries the
recipient's email exactly when the source added an `"email"` key. -/
inductive Outcome where
  | params (p : SendParams)
  | receipt (v : Value)
  | errorRec (msg : String) (email : Option String)

/-- The return value of `EmailService.send`: a single dict in the
non-personalized path, a list of per-recipient outcomes otherwise. -/
inductive SendResult where
  | single (o : Outcome)
  | multi (os : List Outcome)

/-- Immutable service state set up by `EmailService.__init__`. -/
structure ServiceConfig where
  apiKey : String
  defaultFrom : EmailAddress
  templatesDir : String
  testing : Bool
  deriving Repr

/-- The per-recipient template-data override of the personalized path of
`EmailService.send` (lines 237-245): when a `user` key exists, the whole
`user` entry is replaced by a fresh two-key dict with this recipient's
name (falling back to the stored `user.name`, then `"Usuario"`) and
email. -/
def sendPersonalize (data : Value) (recipient : EmailAddress) : Value :=
  match data with
  | .obj fields =>
    match lookupAssoc fields "user" with
    | some userVal =>
      let fallback : Value :=
        match userVal with
        | .obj uf => (lookupAssoc uf "name").getD (.str "Usuario")
        | _ => .str "Usuario"
      let nameVal : Value :=
        match recipient.name with
        | some n => if n = "" then fallback else .str n
        | none => fallback
      .obj (setAssoc fields "user"
        (.obj [("name", nameVal), ("email", .str recipient.email)]))
    | none => data
  | _ => data

/-- The per-recipient override of `EmailService.send_batch`
(lines 332-340): the `user` dict is copied and its `name`/`email` keys
updated in place, keeping any other keys. -/
def batchPersonalize (data : Value) (recipient : EmailAddress) : Value :=
  match data with
  | .obj fields =>
    match lookupAssoc fields "user" with
    | some (.obj uf) =>
      let fallback : Value := (lookupAssoc uf "name").getD (.str "Usuario")
      let nameVal : Value :=
        match recipient.name with
        | some n => if n = "" then fallback else .str n
        | none => fallback
      let uf' := setAssoc (setAssoc uf "name" nameVal) "email" (.str recipient.email)
      .obj (setAssoc fields "user" (.obj uf'))
    | some _ => data
    | none => data
  | _ => data

/-- The body of the per-recipient loop of the personalized path of
`EmailService.send` (lines 235-271): build the personalized data, render
with inline styles, build params for this single recipient, then either
keep the params (testing mode) or deliver; any raised exception is caught
and recorded as `{"error": str(e), "email": recipient.email}`. -/
def sendOneRecipient (cfg : ServiceConfig) (ad : Adapters) (v : EmailVariant)
    (subject : String) (fromE : EmailAddress) (nowFmt : String)
    (recipient : EmailAddress) : Outcome :=
  match renderWithInlineStyles ad v.templateName
      (sendPersonalize (getTemplateData v nowFmt) recipient) with
  | .error e => .errorRec e.msg (some recipient.email)
  | .ok html =>
    if cfg.testing then
      .params (prepareEmailParams fromE [recipient] subject html none none)
    else
      match ad.deliver (prepareEmailParams fromE [recipient] subject html none none) with
      | .ok r => .receipt r
      | .error m => .errorRec m (some recipient.email)

/-- `EmailService.send`.  `toAddrs` is the `to` list after the source's
normalization of a bare address to a one-element list; `nowFmt` is the
render-time formatted clock. -/
def send (cfg : ServiceConfig) (ad : Adapters) (v : EmailVariant)
    (toAddrs : List EmailAddress) (subject : String)
    (fromEmail : Option EmailAddress) (cc bcc : Option (List EmailAddress))
    (personalize : Bool) (nowFmt : String) : Except Err SendResult :=
  match v.validate with
  | .error e =>
    .error ⟨.emailServiceError, "Error al validar los datos del email: " ++ e.msg⟩
  | .ok _ =>
    let fromE := fromEmail.getD cfg.defaultFrom
    if !personalize then
      match renderWithInlineStyles ad v.templateName (getTemplateData v nowFmt) with
      | .error e => .error ⟨.emailServiceError, "Error al enviar email: " ++ e.msg⟩
      | .ok html =>
        let params := prepareEmailParams fromE toAddrs subject html cc bcc
        if cfg.testing then .ok (.single (.params params))
        else
          match ad.deliver params with
          | .ok r => .ok (.single (.receipt r))
          | .error m => .error ⟨.emailServiceError, "Error al enviar email: " ++ m⟩
    else
      .ok (.multi (toAddrs.map (sendOneRecipient cfg ad v subject fromE nowFmt)))

/-- One raw recipient dict of `send_batch`: `email = none` models a dict
without an `'email'` key; `name = none` models a dict without a `'name'`
key (`recipient_data.get('name', '')` then yields `""`). -/
structure RecipientData where
  email : Option String
  name : Option String
  deriving DecidableEq, Repr

/-- The body of the loop of `EmailService.send_batch` (lines 316-375):
`none` when the entry has no `'email'` key (skipped with a warning, no
outcome); otherwise one outcome.  Exceptions raised while processing the
recipient (address construction, rendering) are caught by the outer
handler and recorded as `{"error": str(e)}` with no email key; a delivery
failure is caught by the inner handler and recorded as
`{"error": str(e), "email": recipient.email}`. -/
def processBatchRecipient (cfg : ServiceConfig) (ad : Adapters)
    (v : EmailVariant) (subject : String) (fromE : EmailAddress)
    (nowFmt : String) (rd : RecipientData) : Option Outcome :=
  match rd.email with
  | none => none
  | some em =>
    match mkEmailAddress em (some (rd.name.getD "")) with
    | .error e => some (.errorRec e.msg none)
    | .ok recipient =>
      match renderWithInlineStyles ad v.templateName
          (batchPersonalize (getTemplateData v nowFmt) recipient) with
      | .error e => some (.errorRec e.msg none)
      | .ok html =>
        if cfg.testing then
          some (.params (prepareEmailParams fromE [recipient] subject html none none))
        else
          match ad.deliver (prepareEmailParams fromE [recipient] subject html none none) with
          | .ok r => some (.receipt r)
          | .error m => some (.errorRec m (some recipient.email))

/-- `EmailService.send_batch`. -/
def sendBatch (cfg : ServiceConfig) (ad : Adapters) (v : EmailVariant)
    (recipients : List RecipientData) (subject : String)
    (fromEmail : Option EmailAddress) (nowFmt : String) :
    Except Err (List Outcome) :=
  match v.validate with
  | .error e =>
    .error ⟨.emailServiceError, "Error al validar los datos del email: " ++ e.msg⟩
  | .ok _ =>
    let fromE := fromEmail.getD cfg.defaultFrom
    if recipients = [] then
      .error ⟨.emailServiceError, "No se proporcionaron destinatarios"⟩
    else
      .ok (recipients.filterMap (processBatchRecipient cfg ad v subject fromE nowFmt))

/-- The configuration source (`core/config.py` `EmailSystemSettings`):
`templatesDirExists` models `TEMPLATES_DIR.exists()`. -/
structure Settings where
  resendApiKey : String
  defaultFromEmail : String
  defaultFromName : String
  templatesDirName : String
  templatesDirExists : Bool
  testingFlag : Bool
  deriving Repr

/-- `EmailService.__init__`.  `dirExists` models the filesystem check
`Path(templates_dir).exists()` for an explicitly supplied directory.
The Jinja2 `Environment` construction (wrapped in the source into an
`EmailServiceError`) is modelled as always succeeding: it performs no
filesystem access at construction time. -/
def initService (st : Settings) (apiKeyArg : Option String)
    (fromArg : Option EmailAddress) (dirArg : Option String)
    (dirExists : String → Bool) (testingArg : Bool) :
    Except Err ServiceConfig :=
  let resolvedKey :=
    match apiKeyArg with
    | some k => if k = "" then st.resendApiKey else k
    | none => st.resendApiKey
  if resolvedKey = "" && !testingArg then
    .error ⟨.emailServiceError, "API key no configurada para el servicio de email"⟩
  else
    match (match fromArg with
           | some a => Except.ok a
           | none => mkEmailAddress st.defaultFromEmail (some st.defaultFromName)) with
    | .error e => .error e
    | .ok fromAddr =>
      let testing := testingArg || st.testingFlag
      match dirArg with
      | none =>
        if !st.templatesDirExists && !st.testingFlag then
          .error ⟨.emailServiceError,
                  "Error al obtener el directorio de plantillas: El directorio de templates no existe: "
                    ++ st.templatesDirName⟩
        else
          .ok ⟨resolvedKey, fromAddr, st.templatesDirName, testing⟩
      | some d =>
        if !dirExists d && !testing then
          .error ⟨.emailServiceError, "El directorio de templates no existe: " ++ d⟩
        else
          .ok ⟨resolvedKey, fromAddr, d, testing⟩

/-! ## Concrete fixtures used by witnesses and counterexamples -/

/-- A concrete company. -/
def acmeCompany : Company :=
  ⟨"Acme", "1 Main St", ⟨"support@acme.com", none⟩, "https://acme.com", [], none⟩

/-- A concrete recipient with a display name. -/
def userA : EmailAddress := ⟨"a@example.com", some "Ada"⟩

/-- A concrete recipient without a display name. -/
def userB : EmailAddress := ⟨"b@example.com", none⟩

/-- A third concrete recipient. -/
def userC : EmailAddress := ⟨"c@example.com", none⟩

/-- A valid welcome variant. -/
def welcomeVar : EmailVariant :=
  .welcome acmeCompany userA "https://acme.com/dash" 2025

/-- A welcome variant with the required `dashboard_url` empty. -/
def badWelcomeVar : EmailVariant := .welcome acmeCompany userA "" 2025

/-- A valid order-confirmation variant. -/
def orderVar : EmailVariant :=
  .orderConfirmation acmeCompany userA
    ⟨"ORD-1", [⟨"Widget", 2, 1999, none⟩], "1 Main St", "3 days"⟩ 2025

/-- Adapters on which every external call succeeds. -/
def okAdapters : Adapters :=
  { getTemplate := fun n => .ok n
    renderTemplate := fun _ _ => .ok "<html>ok</html>"
    inliner := fun h => .ok h
    deliver := fun _ => .ok (.obj [("id", .str "msg-1")]) }

/-- Adapters whose delivery call fails exactly for `userB`. -/
def failSecond : Adapters :=
  { okAdapters with
    deliver := fun p =>
      if p.toAddrs = ["b@example.com"] then .error "boom"
      else .ok (.obj [("id", .str "msg-1")]) }

/-- Adapters whose style inliner always raises. -/
def brokenInliner : Adapters :=
  { okAdapters with inliner := fun _ => .error "premailer boom" }

/-- Adapters whose delivery call always fails. -/
def failDeliver : Adapters :=
  { okAdapters with deliver := fun _ => .error "boom" }

/-- A service configured in testing mode. -/
def cfgTesting : ServiceConfig :=
  ⟨"key", ⟨"no-reply@acme.com", some "Acme"⟩, "templates", true⟩

/-- A service configured in live (non-testing) mode. -/
def cfgLive : ServiceConfig :=
  ⟨"key", ⟨"no-reply@acme.com", some "Acme"⟩, "templates", false⟩

/-- Settings with no API key configured. -/
def settingsNoKey : Settings :=
  ⟨"", "no-reply@example.com", "Email System", "templates", true, false⟩

/-- Settings with an API key but a missing templates directory. -/
def settingsNoDir : Settings :=
  ⟨"rk", "no-reply@example.com", "Email System", "templates", false, false⟩

/-- Extracts `order_info.created_at` from a template-data mapping. -/
def createdAtOf (v : Value) : Option Value :=
  match v with
  | .obj fs =>
    match lookupAssoc fs "order_info" with
    | some (.obj os) => lookupAssoc os "created_at"
    | _ => none
  | _ => none

/-- A batch recipient list with one empty-string email among two valid
entries. -/
def recipsWithEmpty : List RecipientData :=
  [⟨some "a@example.com", none⟩, ⟨some "", none⟩, ⟨some "c@example.com", none⟩]

/-- A batch recipient list with one entry lacking the `'email'` key. -/
def recipsNoKey : List RecipientData :=
  [⟨some "a@example.com", none⟩, ⟨none, some "NoEmail"⟩, ⟨some "c@example.com", none⟩]

/-- A batch entry with the valid email of `userB`. -/
def rdB : RecipientData := ⟨some "b@example.com", none⟩

/-! ## Claims -/

/-- C10: for every valid variant, `send_batch` with an empty recipients
list does not return an empty result: after validation and before any
per-recipient work (the result is independent of every adapter) it raises
`EmailServiceError` with the no-recipients message. -/
theorem sendBatch_empty_recipients_error (cfg : ServiceConfig) (ad : Adapters)
    (v : EmailVariant) (subject : String) (fromEmail : Option EmailAddress)
    (nowFmt : String) (hv : v.validate = .ok ()) :
    sendBatch cfg ad v [] subject fromEmail nowFmt =
      .error ⟨.emailServiceError, "No se proporcionaron destinatarios"⟩ := by
  simp [sendBatch, hv]

/-- Witness for C10 at a concrete valid variant. -/
theorem sendBatch_empty_recipients_error_witness :
    welcomeVar.validate = .ok () ∧
    sendBatch cfgTesting okAdapters welcomeVar [] "s" none "now" =
      .error ⟨.emailServiceError, "No se proporcionaron destinatarios"⟩ :=
  ⟨by decide,
   sendBatch_empty_recipients_error cfgTesting okAdapters welcomeVar "s" none "now" (by decide)⟩

/-- C7: when the template loads and renders but the style inliner raises,
`_render_with_inline_styles` returns the pre-inline HTML unchanged — the
inliner exception never propagates. -/
theorem inliner_failure_pass_through (ad : Adapters) (tname : String)
    (ctx : Value) (tpl html errMsg : String)
    (hload : ad.getTemplate tname = .ok tpl)
    (hrender : ad.renderTemplate tpl ctx = .ok html)
    (hinline : ad.inliner html = .error errMsg) :
    renderWithInlineStyles ad tname ctx = .ok html := by
  simp [renderWithInlineStyles, hload, hrender, hinline]

/-- Witness for C7 with a concrete always-raising inliner. -/
theorem inliner_failure_pass_through_witness :
    brokenInliner.inliner "<html>ok</html>" = .error "premailer boom" ∧
    renderWithInlineStyles brokenInliner "welcome.html" (.obj []) = .ok "<html>ok</html>" :=
  ⟨rfl, inliner_failure_pass_through brokenInliner "welcome.html" (.obj [])
    "welcome.html" "<html>ok</html>" "premailer boom" rfl rfl rfl⟩

/-- C2: in a non-personalized `send`, a rendering failure or (in live
mode) a delivery failure makes the whole call fail with a single
`EmailServiceError` wrapping the cause; no partial result is returned. -/
theorem send_nonpersonalized_fatal (cfg : ServiceConfig) (ad : Adapters)
    (v : EmailVariant) (toAddrs : List EmailAddress) (subject : String)
    (fromEmail : Option EmailAddress) (cc bcc : Option (List EmailAddress))
    (nowFmt : String) (e : Err) (m html : String)
    (hv : v.validate = .ok ()) :
    (renderWithInlineStyles ad v.templateName (getTemplateData v nowFmt) = .error e →
      send cfg ad v toAddrs subject fromEmail cc bcc false nowFmt =
        .error ⟨.emailServiceError, "Error al enviar email: " ++ e.msg⟩)
    ∧ (renderWithInlineStyles ad v.templateName (getTemplateData v nowFmt) = .ok html →
       cfg.testing = false →
       ad.deliver (prepareEmailParams (fromEmail.getD cfg.defaultFrom) toAddrs subject
         html cc bcc) = .error m →
       send cfg ad v toAddrs subject fromEmail cc bcc false nowFmt =
         .error ⟨.emailServiceError, "Error al enviar email: " ++ m⟩) := by
  constructor
  · intro hr
    simp [send, hv, hr]
  · intro hr ht hd
    simp [send, hv, hr, ht, hd]

/-- Witness for C2: live service, delivery fails for the whole call. -/
theorem send_nonpersonalized_fatal_witness :
    welcomeVar.validate = .ok () ∧
    send cfgLive failDeliver welcomeVar [userA, userB, userC] "s" none none none false "now" =
      .error ⟨.emailServiceError, "Error al enviar email: boom"⟩ := by
  refine ⟨by decide, ?_⟩
  exact (send_nonpersonalized_fatal cfgLive failDeliver welcomeVar [userA, userB, userC]
    "s" none none none "now" ⟨.emailServiceError, ""⟩ "boom" "<html>ok</html>"
    (by decide)).2 rfl rfl rfl

/-- C5 counterexample: a variant whose `validate()` raises makes `send`
fail, but with an `EmailServiceError` wrapping the message — not with a
`ValidationError` as the claim states (the two are sibling exception
classes, so a caller catching `ValidationError` misses it). -/
theorem send_validation_error_not_validationError :
    send cfgTesting okAdapters badWelcomeVar [userA] "s" none none none false "now" =
      .error ⟨.emailServiceError,
        "Error al validar los datos del email: dashboard_url es requerido para el email de bienvenida"⟩
    ∧ ErrKind.emailServiceError ≠ ErrKind.validationError :=
  ⟨rfl, by decide⟩

/-- C5 amended: when `validate()` fails, both `send` and `send_batch`
fail atomically with an `EmailServiceError` wrapping the validation
message; the result is the same for every adapter, so no rendering or
sending can have been attempted and no per-recipient outcome exists. -/
theorem send_validation_failure_atomic (cfg : ServiceConfig)
    (ad ad2 : Adapters) (v : EmailVariant) (toAddrs : List EmailAddress)
    (recipients : List RecipientData) (subject : String)
    (fromEmail : Option EmailAddress) (cc bcc : Option (List EmailAddress))
    (personalize : Bool) (nowFmt : String) (e : Err)
    (hv : v.validate = .error e) :
    send cfg ad v toAddrs subject fromEmail cc bcc personalize nowFmt =
      .error ⟨.emailServiceError, "Error al validar los datos del email: " ++ e.msg⟩
    ∧ sendBatch cfg ad2 v recipients subject fromEmail nowFmt =
      .error ⟨.emailServiceError, "Error al validar los datos del email: " ++ e.msg⟩ := by
  constructor
  · simp [send, hv]
  · simp [sendBatch, hv]

/-- Witness for the amended C5 at a concrete invalid variant. -/
theorem send_validation_failure_atomic_witness :
    badWelcomeVar.validate =
      .error ⟨.validationError, "dashboard_url es requerido para el email de bienvenida"⟩
    ∧ (send cfgTesting okAdapters badWelcomeVar [userA] "s" none none none true "now" =
        .error ⟨.emailServiceError,
          "Error al validar los datos del email: dashboard_url es requerido para el email de bienvenida"⟩
      ∧ sendBatch cfgTesting okAdapters badWelcomeVar [⟨some "a@example.com", none⟩] "s" none "now" =
        .error ⟨.emailServiceError,
          "Error al validar los datos del email: dashboard_url es requerido para el email de bienvenida"⟩) :=
  ⟨by decide,
   send_validation_failure_atomic cfgTesting okAdapters okAdapters badWelcomeVar [userA]
     [⟨some "a@example.com", none⟩] "s" none none none true "now"
     ⟨.validationError, "dashboard_url es requerido para el email de bienvenida"⟩ (by decide)⟩

/-- C6: `validate()` succeeds exactly when every required field is
present and valid (Welcome: non-empty `dashboard_url`; PasswordReset:
non-empty `reset_url` and `expires_in > 0`; Notification and Alert:
non-empty `title` and `message`; OrderConfirmation: order number, at
least one item, non-empty shipping address), and every validation
failure raises `ValidationError`. -/
theorem validate_iff_required_fields (v : EmailVariant) :
    (v.validate = .ok () ↔ specRequiredFields v)
    ∧ (∀ e : Err, v.validate = .error e → e.kind = .validationError) := by
  cases v <;>
    simp only [EmailVariant.validate, EmailVariant.templateName, validateSpecific,
      specRequiredFields] <;>
    constructor <;>
    (split_ifs <;> simp_all <;> first | omega | tauto)

/-- Witness for C6: a valid variant satisfies the requirement predicate,
and a concrete failure is a `ValidationError`. -/
theorem validate_iff_required_fields_witness :
    specRequiredFields welcomeVar
    ∧ (⟨ErrKind.validationError,
        "dashboard_url es requerido para el email de bienvenida"⟩ : Err).kind =
      .validationError :=
  ⟨(validate_iff_required_fields welcomeVar).1.mp (by decide),
   (validate_iff_required_fields badWelcomeVar).2
     ⟨.validationError, "dashboard_url es requerido para el email de bienvenida"⟩ (by decide)⟩

/-- C9 counterexample: constructing the service outside testing mode
with no API key fails — but with `EmailServiceError`, not with the
`ConfigurationError` class the claim names (which exists in
`core/exceptions.py` and is a sibling class never raised here). -/
theorem initService_missing_key_not_configurationError :
    initService settingsNoKey none none (some "tpl") (fun _ => true) false =
      .error ⟨.emailServiceError, "API key no configurada para el servicio de email"⟩
    ∧ ErrKind.emailServiceError ≠ ErrKind.configurationError :=
  ⟨rfl, by decide⟩

/-- C9 amended: service construction outside testing mode fails before
any recipient work with an `EmailServiceError` (not `ConfigurationError`)
when the API key is absent, and likewise when the templates directory
does not exist (whether taken from settings or supplied explicitly). -/
theorem initService_missing_config_email_service_error
    (st1 st2 : Settings) (a : EmailAddress) (dirArg : Option String)
    (dirExists : String → Bool)
    (h1 : st1.resendApiKey = "")
    (h2 : st2.resendApiKey ≠ "")
    (h3 : st2.templatesDirExists = false)
    (h4 : st2.testingFlag = false) :
    initService st1 none (some a) dirArg dirExists false =
      .error ⟨.emailServiceError, "API key no configurada para el servicio de email"⟩
    ∧ initService st2 none (some a) none dirExists false =
      .error ⟨.emailServiceError,
        "Error al obtener el directorio de plantillas: El directorio de templates no existe: "
          ++ st2.templatesDirName⟩
    ∧ (∀ d : String, dirExists d = false →
        initService st2 none (some a) (some d) dirExists false =
          .error ⟨.emailServiceError, "El directorio de templates no existe: " ++ d⟩) := by
  refine ⟨?_, ?_, ?_⟩
  · simp [initService, h1]
  · simp [initService, h2, h3, h4]
  · intro d hd
    simp [initService, h2, h3, h4, hd]

/-- Witness for the amended C9 at concrete settings. -/
theorem initService_missing_config_email_service_error_witness :
    settingsNoKey.resendApiKey = "" ∧
    settingsNoDir.resendApiKey ≠ "" ∧
    initService settingsNoKey none (some userA) (some "tpl") (fun _ => false) false =
      .error ⟨.emailServiceError, "API key no configurada para el servicio de email"⟩ ∧
    initService settingsNoDir none (some userA) none (fun _ => false) false =
      .error ⟨.emailServiceError,
        "Error al obtener el directorio de plantillas: El directorio de templates no existe: templates"⟩ ∧
    initService settingsNoDir none (some userA) (some "nope") (fun _ => false) false =
      .error ⟨.emailServiceError, "El directorio de templates no existe: nope"⟩ := by
  have h := initService_missing_config_email_service_error settingsNoKey settingsNoDir
    userA (some "tpl") (fun _ => false) (by decide) (by decide) (by decide) (by decide)
  exact ⟨by decide, by decide, h.1, h.2.1, h.2.2 "nope" rfl⟩

/-- C1: a personalized `send` (personalize=True) over a validated
variant always returns one outcome per input recipient, in input order;
slot `i` depends only on recipient `i` (it equals the per-recipient
pipeline applied to that recipient, for every adapter behaviour), and a
render or delivery failure for recipient `i` is recorded in slot `i` as
an error record carrying the message and that recipient's email, while
every other slot is unaffected — the call itself never fails. -/
theorem send_personalized_isolation
    (cfg : ServiceConfig) (ad : Adapters) (v : EmailVariant)
    (toAddrs : List EmailAddress) (subject : String)
    (fromEmail : Option EmailAddress) (cc bcc : Option (List EmailAddress))
    (nowFmt : String) (hv : v.validate = .ok ()) :
    ∃ os : List Outcome,
      send cfg ad v toAddrs subject fromEmail cc bcc true nowFmt = .ok (.multi os)
      ∧ os.length = toAddrs.length
      ∧ (∀ i : Nat, os[i]? = (toAddrs[i]?).map
          (sendOneRecipient cfg ad v subject (fromEmail.getD cfg.defaultFrom) nowFmt))
      ∧ (∀ i : Nat, ∀ r : EmailAddress, ∀ e : Err,
          toAddrs[i]? = some r →
          renderWithInlineStyles ad v.templateName
              (sendPersonalize (getTemplateData v nowFmt) r) = .error e →
          os[i]? = some (.errorRec e.msg (some r.email)))
      ∧ (∀ i : Nat, ∀ r : EmailAddress, ∀ html m,
          toAddrs[i]? = some r →
          renderWithInlineStyles ad v.templateName
              (sendPersonalize (getTemplateData v nowFmt) r) = .ok html →
          cfg.testing = false →
          ad.deliver (prepareEmailParams (fromEmail.getD cfg.defaultFrom) [r] subject
            html none none) = .error m →
          os[i]? = some (.errorRec m (some r.email))) := by
  refine ⟨toAddrs.map (sendOneRecipient cfg ad v subject (fromEmail.getD cfg.defaultFrom) nowFmt),
    ?_, ?_, ?_, ?_, ?_⟩
  · simp [send, hv]
  · simp
  · intro i
    simp [List.getElem?_map]
  · intro i r e h1 h2
    simp [List.getElem?_map, h1, sendOneRecipient, h2]
  · intro i r html m h1 h2 h3 h4
    simp [List.getElem?_map, h1, sendOneRecipient, h2, h3, h4]

/-- Witness for C1: three recipients, delivery failing only for the
second, in live mode. -/
theorem send_personalized_isolation_witness :
    welcomeVar.validate = .ok () ∧
    (∃ os : List Outcome,
      send cfgLive failSecond welcomeVar [userA, userB, userC] "s" none none none true "now" =
        .ok (.multi os)
      ∧ os.length = [userA, userB, userC].length
      ∧ (∀ i : Nat, os[i]? = ([userA, userB, userC][i]?).map
          (sendOneRecipient cfgLive failSecond welcomeVar "s"
            ((none : Option EmailAddress).getD cfgLive.defaultFrom) "now"))
      ∧ (∀ i : Nat, ∀ r : EmailAddress, ∀ e : Err,
          [userA, userB, userC][i]? = some r →
          renderWithInlineStyles failSecond welcomeVar.templateName
              (sendPersonalize (getTemplateData welcomeVar "now") r) = .error e →
          os[i]? = some (.errorRec e.msg (some r.email)))
      ∧ (∀ i : Nat, ∀ r : EmailAddress, ∀ html m,
          [userA, userB, userC][i]? = some r →
          renderWithInlineStyles failSecond welcomeVar.templateName
              (sendPersonalize (getTemplateData welcomeVar "now") r) = .ok html →
          cfgLive.testing = false →
          failSecond.deliver (prepareEmailParams
            ((none : Option EmailAddress).getD cfgLive.defaultFrom) [r] "s"
            html none none) = .error m →
          os[i]? = some (.errorRec m (some r.email)))) :=
  ⟨by decide,
   send_personalized_isolation cfgLive failSecond welcomeVar [userA, userB, userC]
     "s" none none none "now" (by decide)⟩

/-- C8 counterexample: `OrderConfirmationEmail.get_template_data` embeds
the render-time clock in `order_info.created_at`, so two renders of the
same variant instance at different formatted minutes produce different
template-data mappings. -/
theorem orderConfirmation_data_not_idempotent :
    getTemplateData orderVar "01/01/2025 10:00" ≠ getTemplateData orderVar "01/01/2025 10:01" := by
  intro h
  have h2 := congrArg createdAtOf h
  have e1 : createdAtOf (getTemplateData orderVar "01/01/2025 10:00") =
      some (.str "01/01/2025 10:00") := rfl
  have e2 : createdAtOf (getTemplateData orderVar "01/01/2025 10:01") =
      some (.str "01/01/2025 10:01") := rfl
  rw [e1, e2] at h2
  injection h2 with h3
  injection h3 with h4
  exact absurd h4 (by decide)

/-- C8 amended: for every variant whose template data does not read the
render-time clock (Welcome, PasswordReset, Notification, Alert),
`get_template_data` on the same instance is idempotent — two calls yield
identical mappings; only OrderConfirmation depends on the clock, and its
two calls agree exactly when the formatted timestamp is unchanged. -/
theorem template_data_idempotent_without_clock (v : EmailVariant)
    (t1 t2 : String) (h : usesRenderClock v = false) :
    getTemplateData v t1 = getTemplateData v t2 := by
  cases v <;> first | (exact rfl) | (simp [usesRenderClock] at h)

/-- Witness for the amended C8 at a concrete welcome variant and two
distinct render times. -/
theorem template_data_idempotent_without_clock_witness :
    usesRenderClock welcomeVar = false ∧
    getTemplateData welcomeVar "01/01/2025 10:00" = getTemplateData welcomeVar "01/01/2025 10:01" :=
  ⟨rfl, template_data_idempotent_without_clock welcomeVar
    "01/01/2025 10:00" "01/01/2025 10:01" rfl⟩

/-- A batch entry that has an `'email'` key produces exactly one outcome;
an entry without the key produces none. -/
theorem processBatchRecipient_isSome (cfg : ServiceConfig) (ad : Adapters)
    (v : EmailVariant) (subject : String) (fromE : EmailAddress)
    (nowFmt : String) (rd : RecipientData) :
    (processBatchRecipient cfg ad v subject fromE nowFmt rd).isSome = rd.email.isSome := by
  unfold processBatchRecipient
  cases rd.email with
  | none => rfl
  | some em =>
    simp only [Option.isSome_some]
    split
    · rfl
    · split
      · rfl
      · split
        · rfl
        · split <;> rfl

/-- `filterMap` keeps exactly the entries on which `f` is `some`, so its
length is that of the corresponding filter. -/
theorem length_filterMap_eq_length_filter {α β : Type} (f : α → Option β)
    (p : α → Bool) (h : ∀ a, (f a).isSome = p a) :
    ∀ l : List α, (l.filterMap f).length = (l.filter p).length := by
  intro l
  induction l with
  | nil => rfl
  | cons a tl ih =>
    have ha := h a
    rw [List.filterMap_cons, List.filter_cons]
    cases hfa : f a with
    | none =>
      rw [hfa] at ha
      simp only [Option.isSome_none] at ha
      rw [← ha]
      simpa using ih
    | some b =>
      rw [hfa] at ha
      simp only [Option.isSome_some] at ha
      rw [← ha]
      simp [ih]

/-- C3 counterexample: with one empty-string-email entry among 3, the
batch returns 3 outcomes, not the N-1 = 2 the claim states — the empty
email passes the `'email' in recipient_data` check, fails `EmailAddress`
construction, and becomes an error record instead of being dropped. -/
theorem sendBatch_empty_email_not_skipped :
    Except.map List.length
      (sendBatch cfgTesting okAdapters welcomeVar recipsWithEmpty "s" none "now") = .ok 3
    ∧ Except.map List.length
      (sendBatch cfgTesting okAdapters welcomeVar recipsWithEmpty "s" none "now") ≠ .ok 2 :=
  ⟨rfl, by decide⟩

/-- C3 amended: `send_batch` silently drops exactly the entries whose
`'email'` KEY is missing — the result has one outcome per entry that has
the key — while an entry whose email value is present but invalid (e.g.
the empty string) is not dropped: it yields an `{"error": ...}` record
(with no email field), so one empty-email entry among N gives N
outcomes. -/
theorem sendBatch_skip_missing_email_key
    (cfg : ServiceConfig) (ad : Adapters) (v : EmailVariant)
    (recipients : List RecipientData) (subject : String)
    (fromEmail : Option EmailAddress) (nowFmt : String)
    (hv : v.validate = .ok ()) (hne : recipients ≠ []) :
    (∃ os : List Outcome,
      sendBatch cfg ad v recipients subject fromEmail nowFmt = .ok os
      ∧ os.length = (recipients.filter (fun rd => rd.email.isSome)).length)
    ∧ (∀ (rd : RecipientData) (s : String), rd.email = some s → emailValid s = false →
        processBatchRecipient cfg ad v subject (fromEmail.getD cfg.defaultFrom) nowFmt rd =
          some (.errorRec pydanticEmailError none)) := by
  constructor
  · refine ⟨recipients.filterMap
      (processBatchRecipient cfg ad v subject (fromEmail.getD cfg.defaultFrom) nowFmt),
      ?_, ?_⟩
    · simp [sendBatch, hv, hne]
    · exact length_filterMap_eq_length_filter _ _
        (processBatchRecipient_isSome cfg ad v subject _ nowFmt) recipients
  · intro rd s h1 h2
    simp [processBatchRecipient, h1, mkEmailAddress, h2]

/-- Witness for the amended C3: the entry without an `'email'` key is
dropped (2 outcomes out of 3 entries), and an empty email value yields
an error record. -/
theorem sendBatch_skip_missing_email_key_witness :
    welcomeVar.validate = .ok () ∧ recipsNoKey ≠ [] ∧
    ((∃ os : List Outcome,
        sendBatch cfgTesting okAdapters welcomeVar recipsNoKey "s" none "now" = .ok os
        ∧ os.length = (recipsNoKey.filter (fun rd => rd.email.isSome)).length)
      ∧ (∀ (rd : RecipientData) (s : String), rd.email = some s → emailValid s = false →
          processBatchRecipient cfgTesting okAdapters welcomeVar "s"
              ((none : Option EmailAddress).getD cfgTesting.defaultFrom) "now" rd =
            some (.errorRec pydanticEmailError none))) :=
  ⟨by decide, by decide,
   sendBatch_skip_missing_email_key cfgTesting okAdapters welcomeVar recipsNoKey
     "s" none "now" (by decide) (by decide)⟩

/-- C4 counterexample: in `send_batch`, a recipient-processing failure
(here: the empty-string email rejected during `EmailAddress`
construction) is recorded as `{"error": msg}` with NO email field — the
outer exception handler of the batch loop omits the `"email"` key. -/
theorem sendBatch_error_record_missing_email_field :
    Except.map (fun os : List Outcome => os[1]?)
      (sendBatch cfgTesting okAdapters welcomeVar recipsWithEmpty "s" none "now") =
      .ok (some (.errorRec pydanticEmailError none)) := rfl

/-- C4 amended: in the personalized `send`, every error record carries
the affected recipient's email; in `send_batch` only delivery-stage
failures do — error records produced by the batch loop's outer handler
(address construction or rendering failures) carry just the message. -/
theorem error_records_carry_email (cfg : ServiceConfig) (ad : Adapters)
    (v : EmailVariant) (subject : String) (fromE : EmailAddress) (nowFmt : String) :
    (∀ (r : EmailAddress) (m : String) (em : Option String),
      sendOneRecipient cfg ad v subject fromE nowFmt r = .errorRec m em →
      em = some r.email)
    ∧ (∀ (rd : RecipientData) (r : EmailAddress) (s html m : String),
        rd.email = some s →
        mkEmailAddress s (some (rd.name.getD "")) = .ok r →
        renderWithInlineStyles ad v.templateName
          (batchPersonalize (getTemplateData v nowFmt) r) = .ok html →
        cfg.testing = false →
        ad.deliver (prepareEmailParams fromE [r] subject html none none) = .error m →
        processBatchRecipient cfg ad v subject fromE nowFmt rd =
          some (.errorRec m (some r.email))) := by
  constructor
  · intro r m em h
    unfold sendOneRecipient at h
    split at h
    · injection h with h1 h2
      exact h2.symm
    · split at h
      · exact Outcome.noConfusion h
      · split at h
        · exact Outcome.noConfusion h
        · injection h with h1 h2
          exact h2.symm
  · intro rd r s html m h1 h2 h3 h4 h5
    simp [processBatchRecipient, h1, h2, h3, h4, h5]

/-- Witness for the amended C4: a delivery failure for `userB` is
recorded with the email field in both the personalized path and the
batch path. -/
theorem error_records_carry_email_witness :
    sendOneRecipient cfgLive failSecond welcomeVar "s" cfgLive.defaultFrom "now" userB =
      .errorRec "boom" (some "b@example.com")
    ∧ (some "b@example.com" : Option String) = some userB.email
    ∧ processBatchRecipient cfgLive failSecond welcomeVar "s" cfgLive.defaultFrom "now" rdB =
      some (.errorRec "boom" (some (EmailAddress.mk "b@example.com" (some "")).email)) :=
  ⟨rfl,
   (error_records_carry_email cfgLive failSecond welcomeVar "s"
     cfgLive.defaultFrom "now").1 userB "boom" (some "b@example.com") rfl,
   (error_records_carry_email cfgLive failSecond welcomeVar "s"
     cfgLive.defaultFrom "now").2 rdB ⟨"b@example.com", some ""⟩ "b@example.com"
     "<html>ok</html>" "boom" rfl rfl rfl rfl rfl⟩

end EmailSystem
